import Mathlib

/-!
Verification of the data-engineer job-search automation repository.

The repository contains two near-duplicate batch pipelines:
  * src/job_alert.py       (multi-source variant: Naukri scraper plus company
    career portals, per-card error containment, report skipped when empty)
  * src/job_search_automation.py (RSS variant: Indeed RSS feed, no per-item
    error containment, single-row report when empty)

Python strings are modelled as lists of characters (type Str below); the
regular expression search for digit runs, lowercasing, substring tests and
stripping are modelled by executable functions on Str.  External fallible
operations (network fetches, per-entry markup extraction, the spreadsheet
write, the SMTP delivery) are inputs of type Except, and the try/except
structure of the code is mirrored by explicit matches on those inputs.
-/

namespace JobSearch

/-- Model of a Python string: its list of characters. -/
abbrev Str := List Char

/-- Character list of a Lean string literal. -/
def str (s : String) : Str := s.toList

/-- Model of the Python test `needle == hay[:len(needle)]`. -/
def listStartsWith : Str → Str → Bool
  | [], _ => true
  | _ :: _, [] => false
  | a :: as, b :: bs => a == b && listStartsWith as bs

/-- Model of the Python membership test `needle in hay` on strings. -/
def listContains (needle : Str) : Str → Bool
  | [] => needle.isEmpty
  | c :: t => listStartsWith needle (c :: t) || listContains needle t

/-- Model of Python `s.lower()` for the ASCII strings handled by the code. -/
def pyLower (s : Str) : Str := s.map Char.toLower

/-- Model of Python `s.strip()`. -/
def pyStrip (s : Str) : Str :=
  ((s.dropWhile Char.isWhitespace).reverse.dropWhile Char.isWhitespace).reverse

/-- Maximal runs of digit characters, accumulating the current run reversed.
Models the matches of the regular expression for one or more digits. -/
def digitRunsAux : Str → Str → List Str
  | cur, [] => if cur.isEmpty then [] else [cur.reverse]
  | cur, c :: cs =>
    if c.isDigit then digitRunsAux (c :: cur) cs
    else if cur.isEmpty then digitRunsAux [] cs
    else cur.reverse :: digitRunsAux [] cs

/-- All maximal digit runs of a string, in order. -/
def digitRuns (s : Str) : List Str := digitRunsAux [] s

/-- Model of Python `int(...)` on a string of decimal digits. -/
def digitsToNat (ds : Str) : Nat := ds.foldl (fun a c => 10 * a + (c.toNat - 48)) 0

/-- Model of `[int(n) for n in re.findall(digit-run-pattern, s)]`. -/
def extractNumbers (s : Str) : List Nat := (digitRuns s).map digitsToNat

/-- Model of Python `max` on a nonempty list (head as the seed of the fold). -/
def pyMaxList : List Nat → Nat
  | [] => 0
  | n :: ns => ns.foldl max n

/-- src/job_alert.py is_valid_experience (lines 112 to 127).  The argument is
an Option so that the Python call with None (falsy, caught by the first
guard together with the empty string) is representable. -/
def is_valid_experience : Option Str → Bool
  | none => true
  | some s =>
    if s.isEmpty || s == str "Not Specified" then true
    else
      let el := pyLower s
      if listContains (str "fresher") el || listContains (str "entry") el then true
      else
        let numbers := extractNumbers el
        if numbers.isEmpty then true else decide (pyMaxList numbers ≤ 2)

/-- src/job_search_automation.py is_valid_experience (lines 65 to 78), on a
string argument.  Note the second marker is the full phrase entry level. -/
def is_valid_experience_rss (text : Str) : Bool :=
  let tl := pyLower text
  if listContains (str "fresher") tl || listContains (str "entry level") tl then true
  else
    let numbers := extractNumbers tl
    if numbers.isEmpty then true else decide (pyMaxList numbers ≤ 2)

/-- One Python-level error value for every exception class the code meets. -/
inductive PyErr : Type
  | transport
  | parse
  | attr
  | write
  | other
deriving DecidableEq, Repr

/-- src/job_search_automation.py is_valid_experience as actually invoked: on
the Python value None (an element whose text is empty) the very first
statement, lowercasing the argument, raises an attribute error; there is no
guard as in the other variant. -/
def is_valid_experience_rss_py : Option Str → Except PyErr Bool
  | none => Except.error PyErr.attr
  | some t => Except.ok (is_valid_experience_rss t)

/-- Record built by src/job_alert.py (eight fields, lines 59 to 68). -/
structure JobA : Type where
  title : Str
  company : Str
  location : Str
  salary : Str
  experience : Str
  jobSource : Str
  url : Str
  postedDate : Str
deriving DecidableEq, Repr

/-- Record built by src/job_search_automation.py (seven fields, no salary,
lines 47 to 55). -/
structure JobR : Type where
  title : Str
  company : Str
  location : Str
  experience : Str
  jobSource : Str
  postedDate : Str
  url : Str
deriving DecidableEq, Repr

/-- Keep the first record per key, as pandas drop_duplicates with keep set to
first does; seen carries the keys of records already kept. -/
def dedupeBy {α κ : Type} [DecidableEq κ] (key : α → κ) : List κ → List α → List α
  | _, [] => []
  | seen, a :: as =>
    if key a ∈ seen then dedupeBy key seen as
    else a :: dedupeBy key (key a :: seen) as

/-- Uniqueness key of src/job_alert.py remove_duplicates: the subset columns
Company, Job Title, Location (line 135). -/
def keyAlert (j : JobA) : Str × Str × Str := (j.company, j.title, j.location)

/-- Uniqueness key of src/job_search_automation.py remove_duplicates: the
subset columns Job Title, Job URL (line 88). -/
def keyRss (j : JobR) : Str × Str := (j.title, j.url)

/-- src/job_alert.py remove_duplicates (lines 129 to 137): drop later
key-equal rows, keep the first; the round trip through the data frame keeps
every field of the surviving rows. -/
def remove_duplicates (jobs : List JobA) : List JobA := dedupeBy keyAlert [] jobs

/-- src/job_search_automation.py remove_duplicates (lines 83 to 89). -/
def remove_duplicates_rss (jobs : List JobR) : List JobR := dedupeBy keyRss [] jobs

/-- Data one Naukri result card exposes: the optional elements and the href
attribute of the title anchor (src/job_alert.py lines 40 to 56). -/
structure NaukriEntry : Type where
  title : Option Str
  company : Option Str
  location : Option Str
  salary : Option Str
  experience : Option Str
  href : Str
deriving DecidableEq, Repr

/-- Body of the per-card loop of scrape_naukri_jobs (lines 38 to 70): a card
whose processing raises is skipped by the per-card handler; a card missing
title, company or location is skipped; otherwise the record is appended when
the experience filter accepts. -/
def processNaukriCard (runDate : Str) (card : Except PyErr NaukriEntry) : Option JobA :=
  match card with
  | Except.error _ => none
  | Except.ok e =>
    match e.title, e.company, e.location with
    | some t, some c, some l =>
      let salary := match e.salary with
        | some s => pyStrip s
        | none => str "Not Specified"
      let experience := match e.experience with
        | some s => pyStrip s
        | none => str "Not Specified"
      let jobUrl :=
        if listStartsWith (str "/") e.href then str "https://www.naukri.com" ++ e.href
        else e.href
      if is_valid_experience (some experience) then
        some { title := pyStrip t, company := pyStrip c, location := pyStrip l,
               salary := salary, experience := experience,
               jobSource := str "Naukri.com", url := jobUrl, postedDate := runDate }
      else none
    | _, _, _ => none

/-- src/job_alert.py scrape_naukri_jobs (lines 30 to 73): a transport or
parse failure of the fetch is caught by the outer handler and contributes
nothing; otherwise the first 25 cards are processed. -/
def scrape_naukri_jobs (runDate : Str)
    (fetch : Except PyErr (List (Except PyErr NaukriEntry))) : List JobA :=
  match fetch with
  | Except.error _ => []
  | Except.ok cards => (cards.take 25).filterMap (processNaukriCard runDate)

/-- The three fixed companies of scrape_company_portals (lines 80 to 84). -/
def portalCompanies : List Str := [str "Cognizant", str "TCS", str "Infosys"]

/-- The href test of scrape_company_portals line 95. -/
def hrefOk (href : Str) : Bool :=
  !href.isEmpty && (listContains (str "http") href || listStartsWith (str "/") href)

/-- The constant-field record appended for one accepted portal link
(src/job_alert.py lines 96 to 105). -/
def portalJob (company href runDate : Str) : JobA :=
  { title := str "Data Engineer", company := company, location := str "India",
    salary := str "Check Portal", experience := str "0-2 years",
    jobSource := company ++ str " Portal", url := href, postedDate := runDate }

/-- Per-company body of scrape_company_portals (lines 86 to 107): a failing
fetch is caught by the per-company handler; otherwise the first 5 links are
kept when their href passes the test. -/
def scrapePortalCompany (runDate company : Str)
    (fetch : Except PyErr (List Str)) : List JobA :=
  match fetch with
  | Except.error _ => []
  | Except.ok links =>
    (links.take 5).filterMap fun href =>
      if hrefOk href then some (portalJob company href runDate) else none

/-- src/job_alert.py scrape_company_portals (lines 75 to 110): companies are
visited in order, each with its own handler. -/
def scrape_company_portals (runDate : Str) :
    List (Str × Except PyErr (List Str)) → List JobA
  | [] => []
  | (c, f) :: rest => scrapePortalCompany runDate c f ++ scrape_company_portals runDate rest

/-- Data of one RSS item as the Python locals hold it after the four finds
(src/job_search_automation.py lines 34 to 37): none models the Python value
None, produced when the element exists but has empty text; a missing element
is defaulted to the empty string by the code itself. -/
structure RssItem : Type where
  title : Option Str
  link : Str
  description : Option Str
  pubDate : Str
deriving DecidableEq, Repr

/-- Body of the per-item loop of scrape_indeed_rss (lines 33 to 55).  There
is no per-item handler: lowercasing a None title raises, and so does the
filter on a None description; an item whose title lacks the phrase data
engineer, or whose description the filter rejects, is skipped. -/
def processRssItem (it : RssItem) : Except PyErr (Option JobR) :=
  match it.title with
  | none => Except.error PyErr.attr
  | some t =>
    if !listContains (str "data engineer") (pyLower t) then Except.ok none
    else
      match is_valid_experience_rss_py it.description with
      | Except.error e => Except.error e
      | Except.ok valid =>
        if !valid then Except.ok none
        else Except.ok (some
          { title := pyStrip t, company := str "Check Indeed Posting",
            location := str "India", experience := str "≤ 2 years",
            jobSource := str "Indeed RSS", postedDate := it.pubDate, url := it.link })

/-- The item loop with the mutable jobs list: an uncaught per-item error
keeps the records appended so far and abandons the remaining items; the
second component reports the escaped error, if any. -/
def processRssItems : List RssItem → List JobR × Option PyErr
  | [] => ([], none)
  | it :: its =>
    match processRssItem it with
    | Except.error e => ([], some e)
    | Except.ok none => processRssItems its
    | Except.ok (some j) =>
      let r := processRssItems its
      (j :: r.1, r.2)

/-- src/job_search_automation.py scrape_indeed_rss (lines 24 to 60): the
whole body sits in one try block, so both a fetch failure and an escaped
per-item error end the adapter, keeping whatever was already appended. -/
def scrape_indeed_rss (fetch : Except PyErr (List RssItem)) : List JobR :=
  match fetch with
  | Except.error _ => []
  | Except.ok items => (processRssItems items).1

/-- src/job_alert.py generate_excel_report (lines 139 to 177): with no jobs
it returns None without writing anything; otherwise the write may fail, also
answered by None; on success the caller receives the fixed file whose rows
are the records. -/
def generate_excel_report (jobs : List JobA) (writer : Except PyErr Unit) :
    Option (List JobA) :=
  if jobs.isEmpty then none
  else
    match writer with
    | Except.ok _ => some jobs
    | Except.error _ => none

/-- A row of the RSS variant report: a record row or the single message row. -/
inductive RssRow : Type
  | job (j : JobR)
  | message (s : Str)
deriving DecidableEq, Repr

/-- The message written by src/job_search_automation.py lines 98 to 100. -/
def noJobsMessage : Str := str "No Data Engineer (≤2 YOE) jobs found today."

/-- src/job_search_automation.py generate_excel (lines 94 to 105), the rows
of the written sheet: one message row when empty, else one row per record. -/
def generate_excel (jobs : List JobR) : List RssRow :=
  if jobs.isEmpty then [RssRow.message noJobsMessage] else jobs.map RssRow.job

/-- The three delivery credentials as the environment provides them: none
models an unset variable. -/
structure Env : Type where
  sender : Option Str
  password : Option Str
  recipient : Option Str
deriving DecidableEq, Repr

/-- Python truthiness of a getenv result: None and the empty string are
falsy. -/
def truthy : Option Str → Bool
  | none => false
  | some s => !s.isEmpty

/-- The combined credential guard of both notifiers. -/
def credsOk (env : Env) : Bool :=
  truthy env.sender && truthy env.password && truthy env.recipient

/-- Outcome of the SMTP session, an external fallible operation. -/
inductive SmtpErr : Type
  | auth
  | other
deriving DecidableEq, Repr

/-- True exactly on a non-error value. -/
def exceptOk {ε α : Type} : Except ε α → Bool
  | Except.ok _ => true
  | Except.error _ => false

/-- True exactly when the delivery succeeded. -/
def smtpOk (d : Except SmtpErr Unit) : Bool := exceptOk d

/-- src/job_alert.py send_email_alert (lines 179 to 262).  The result pair
is the returned boolean and whether the delivery attempt (the try block
around composing, attaching and the SMTP session) was reached at all;
missing credentials and a missing file return False before that block, and
every exception inside it is caught and answered by False. -/
def send_email_alert (env : Env) (fileExists : Bool)
    (delivery : Except SmtpErr Unit) : Bool × Bool :=
  if !(truthy env.sender && truthy env.password && truthy env.recipient) then (false, false)
  else if !fileExists then (false, false)
  else
    match delivery with
    | Except.ok _ => (true, true)
    | Except.error _ => (false, true)

/-- src/job_search_automation.py send_email (lines 110 to 153): same shape,
without the file-existence guard; the bare return on missing secrets is a
failure result. -/
def send_email (env : Env) (delivery : Except SmtpErr Unit) : Bool × Bool :=
  if !(truthy env.sender && truthy env.password && truthy env.recipient) then (false, false)
  else
    match delivery with
    | Except.ok _ => (true, true)
    | Except.error _ => (false, true)

/-- The external world of one src/job_alert.py run: the run date, the fetch
outcome of every source, the spreadsheet write outcome, the environment and
the delivery outcome. -/
structure AlertInputs : Type where
  runDate : Str
  naukriFetch : Except PyErr (List (Except PyErr NaukriEntry))
  portalFetch : Str → Except PyErr (List Str)
  writer : Except PyErr Unit
  env : Env
  delivery : Except SmtpErr Unit

/-- Observable outcome of one src/job_alert.py run. -/
structure AlertResult : Type where
  jobs : List JobA
  report : Option (List JobA)
  notifierInvoked : Bool
  deliveryAttempted : Bool
  emailSent : Bool
deriving DecidableEq, Repr

/-- src/job_alert.py run (lines 264 to 291): scrape both sources into one
list, deduplicate, build the report, and send only when a report file was
produced.  Every fallible operation is consumed by a handler, so the run
itself is a total function. -/
def runAlert (inp : AlertInputs) : AlertResult :=
  let jobs1 := scrape_naukri_jobs inp.runDate inp.naukriFetch
  let jobs2 := jobs1 ++ scrape_company_portals inp.runDate
    (portalCompanies.map fun c => (c, inp.portalFetch c))
  let jobs3 := remove_duplicates jobs2
  match generate_excel_report jobs3 inp.writer with
  | none =>
    { jobs := jobs3, report := none, notifierInvoked := false,
      deliveryAttempted := false, emailSent := false }
  | some rows =>
    let sendRes := send_email_alert inp.env true inp.delivery
    { jobs := jobs3, report := some rows, notifierInvoked := true,
      deliveryAttempted := sendRes.2, emailSent := sendRes.1 }

/-- The external world of one src/job_search_automation.py run. -/
structure RssInputs : Type where
  fetch : Except PyErr (List RssItem)
  writer : Except PyErr Unit
  env : Env
  delivery : Except SmtpErr Unit

/-- Observable outcome of one src/job_search_automation.py run. -/
structure RssResult : Type where
  jobs : List JobR
  reportRows : List RssRow
  deliveryAttempted : Bool
  emailSent : Bool
deriving DecidableEq, Repr

/-- src/job_search_automation.py run (lines 158 to 167): scrape, dedupe,
always build the report, always invoke the notifier.  The spreadsheet write
sits outside every try block, so its failure escapes and ends the run; that
is the only uncaught fallible operation. -/
def runRss (inp : RssInputs) : Except PyErr RssResult :=
  let jobs1 := scrape_indeed_rss inp.fetch
  let jobs2 := remove_duplicates_rss jobs1
  let rows := generate_excel jobs2
  match inp.writer with
  | Except.error e => Except.error e
  | Except.ok _ =>
    let sendRes := send_email inp.env inp.delivery
    Except.ok { jobs := jobs2, reportRows := rows,
                deliveryAttempted := sendRes.2, emailSent := sendRes.1 }

theorem dedupeBy_sublist {α κ : Type} [DecidableEq κ] (key : α → κ) :
    ∀ (seen : List κ) (xs : List α), List.Sublist (dedupeBy key seen xs) xs := by
  intro seen xs
  induction xs generalizing seen with
  | nil => simp [dedupeBy]
  | cons a as ih =>
    simp only [dedupeBy]
    by_cases h : key a ∈ seen
    · rw [if_pos h]
      exact List.Sublist.cons _ (ih seen)
    · rw [if_neg h]
      exact List.Sublist.cons₂ _ (ih (key a :: seen))

theorem dedupeBy_mem_key_not_seen {α κ : Type} [DecidableEq κ] (key : α → κ) :
    ∀ (seen : List κ) (xs : List α) (b : α), b ∈ dedupeBy key seen xs → key b ∉ seen := by
  intro seen xs
  induction xs generalizing seen with
  | nil => intro b hb; simp [dedupeBy] at hb
  | cons a as ih =>
    intro b hb
    simp only [dedupeBy] at hb
    by_cases h : key a ∈ seen
    · rw [if_pos h] at hb
      exact ih seen b hb
    · rw [if_neg h] at hb
      rcases List.mem_cons.mp hb with rfl | hb'
      · exact h
      · intro hmem
        exact ih (key a :: seen) b hb' (List.mem_cons_of_mem _ hmem)

theorem dedupeBy_keys_nodup {α κ : Type} [DecidableEq κ] (key : α → κ) :
    ∀ (seen : List κ) (xs : List α), ((dedupeBy key seen xs).map key).Nodup := by
  intro seen xs
  induction xs generalizing seen with
  | nil => simp [dedupeBy]
  | cons a as ih =>
    simp only [dedupeBy]
    by_cases h : key a ∈ seen
    · rw [if_pos h]
      exact ih seen
    · rw [if_neg h]
      simp only [List.map_cons, List.nodup_cons]
      refine ⟨?_, ih (key a :: seen)⟩
      intro hmem
      rcases List.mem_map.mp hmem with ⟨b, hb, hkb⟩
      refine dedupeBy_mem_key_not_seen key _ _ b hb ?_
      rw [hkb]
      exact List.mem_cons_self _ _

theorem dedupeBy_eq_self {α κ : Type} [DecidableEq κ] (key : α → κ) :
    ∀ (seen : List κ) (ys : List α),
      (∀ a ∈ ys, key a ∉ seen) → (ys.map key).Nodup → dedupeBy key seen ys = ys := by
  intro seen ys
  induction ys generalizing seen with
  | nil => intro _ _; rfl
  | cons a as ih =>
    intro hseen hnd
    simp only [List.map_cons, List.nodup_cons] at hnd
    simp only [dedupeBy]
    rw [if_neg (hseen a (List.mem_cons_self _ _))]
    congr 1
    apply ih
    · intro b hb
      intro hmem
      rcases List.mem_cons.mp hmem with heq | hmem'
      · have : key a ∈ as.map key := by
          rw [← heq]
          exact List.mem_map_of_mem key hb
        exact hnd.1 this
      · exact hseen b (List.mem_cons_of_mem _ hb) hmem'
    · exact hnd.2

theorem dedupeBy_idem {α κ : Type} [DecidableEq κ] (key : α → κ) (xs : List α) :
    dedupeBy key [] (dedupeBy key [] xs) = dedupeBy key [] xs := by
  apply dedupeBy_eq_self
  · intro a _
    exact List.not_mem_nil _
  · exact dedupeBy_keys_nodup key [] xs

theorem dedupeBy_mem_iff {α κ : Type} [DecidableEq κ] (key : α → κ) :
    ∀ (xs : List α) (seen : List κ) (b : α),
      b ∈ dedupeBy key seen xs ↔
        key b ∉ seen ∧ ∃ l₁ l₂, xs = l₁ ++ b :: l₂ ∧ ∀ a ∈ l₁, key a ≠ key b := by
  intro xs
  induction xs with
  | nil =>
    intro seen b
    constructor
    · intro h
      simp [dedupeBy] at h
    · rintro ⟨-, l₁, l₂, heq, -⟩
      cases l₁ <;> simp at heq
  | cons x xs ih =>
    intro seen b
    simp only [dedupeBy]
    by_cases hx : key x ∈ seen
    · rw [if_pos hx, ih]
      constructor
      · rintro ⟨hb, l₁, l₂, rfl, hl₁⟩
        refine ⟨hb, x :: l₁, l₂, rfl, ?_⟩
        intro a ha
        rcases List.mem_cons.mp ha with rfl | ha'
        · intro hk
          exact hb (hk ▸ hx)
        · exact hl₁ a ha'
      · rintro ⟨hb, l₁, l₂, heq, hl₁⟩
        cases l₁ with
        | nil =>
          simp at heq
          rcases heq with ⟨rfl, rfl⟩
          exact absurd hx hb
        | cons a l₁ =>
          simp at heq
          rcases heq with ⟨rfl, heq2⟩
          exact ⟨hb, l₁, l₂, heq2, fun c hc => hl₁ c (List.mem_cons_of_mem _ hc)⟩
    · rw [if_neg hx]
      simp only [List.mem_cons]
      constructor
      · rintro (rfl | hb')
        · exact ⟨hx, [], xs, rfl, by simp⟩
        · rcases (ih _ _).mp hb' with ⟨hb, l₁, l₂, rfl, hl₁⟩
          have hbx : key b ≠ key x := by
            intro hk
            apply hb
            rw [hk]
            exact List.mem_cons_self _ _
          have hbseen : key b ∉ seen := fun h => hb (List.mem_cons_of_mem _ h)
          refine ⟨hbseen, x :: l₁, l₂, rfl, ?_⟩
          intro a ha
          rcases List.mem_cons.mp ha with rfl | ha'
          · intro hk
            exact hbx hk.symm
          · exact hl₁ a ha'
      · rintro ⟨hb, l₁, l₂, heq, hl₁⟩
        cases l₁ with
        | nil =>
          simp at heq
          rcases heq with ⟨h1, rfl⟩
          exact Or.inl h1.symm
        | cons a l₁ =>
          simp at heq
          rcases heq with ⟨rfl, heq2⟩
          right
          apply (ih _ _).mpr
          refine ⟨?_, l₁, l₂, heq2, fun c hc => hl₁ c (List.mem_cons_of_mem _ hc)⟩
          simp only [List.mem_cons, not_or]
          exact ⟨(hl₁ x (List.mem_cons_self _ _)).symm, hb⟩

/-- C7: deduplication is idempotent in both variants: re-running
remove_duplicates on an already deduplicated record list leaves it
unchanged, for every record sequence. -/
theorem claim7_dedupe_idempotent :
    ∀ (xs : List JobA) (ys : List JobR),
      remove_duplicates (remove_duplicates xs) = remove_duplicates xs ∧
      remove_duplicates_rss (remove_duplicates_rss ys) = remove_duplicates_rss ys := by
  intro xs ys
  exact ⟨dedupeBy_idem keyAlert xs, dedupeBy_idem keyRss ys⟩

/-- C8: remove_duplicates keeps exactly the first record per uniqueness key,
with key (Company, Job Title, Location) in the multi-source variant and
(Job Title, Job URL) in the RSS variant: the survivors are a sublist of the
input (first-seen order and record content preserved, no field mutation),
their keys are pairwise distinct, and a record survives exactly when no
earlier record of the input shares its key. -/
theorem claim8_dedupe_first_per_key :
    ∀ (xs : List JobA) (ys : List JobR),
      List.Sublist (remove_duplicates xs) xs ∧
      ((remove_duplicates xs).map keyAlert).Nodup ∧
      (∀ b, b ∈ remove_duplicates xs ↔
        ∃ l₁ l₂, xs = l₁ ++ b :: l₂ ∧ ∀ a ∈ l₁, keyAlert a ≠ keyAlert b) ∧
      List.Sublist (remove_duplicates_rss ys) ys ∧
      ((remove_duplicates_rss ys).map keyRss).Nodup ∧
      (∀ b, b ∈ remove_duplicates_rss ys ↔
        ∃ l₁ l₂, ys = l₁ ++ b :: l₂ ∧ ∀ a ∈ l₁, keyRss a ≠ keyRss b) := by
  intro xs ys
  refine ⟨dedupeBy_sublist keyAlert [] xs, dedupeBy_keys_nodup keyAlert [] xs, ?_,
    dedupeBy_sublist keyRss [] ys, dedupeBy_keys_nodup keyRss [] ys, ?_⟩
  · intro b
    rw [remove_duplicates, dedupeBy_mem_iff]
    simp
  · intro b
    rw [remove_duplicates_rss, dedupeBy_mem_iff]
    simp

theorem listContains_nil (l : Str) : listContains [] l = true := by
  cases l <;> simp [listContains, listStartsWith]

theorem listStartsWith_append (n₁ n₂ : Str) :
    ∀ l, listStartsWith (n₁ ++ n₂) l = true → listStartsWith n₁ l = true := by
  induction n₁ with
  | nil => intro l _; rfl
  | cons a as ih =>
    intro l h
    cases l with
    | nil => simp [listStartsWith] at h
    | cons b bs =>
      simp only [List.cons_append, listStartsWith, Bool.and_eq_true] at h ⊢
      exact ⟨h.1, ih bs h.2⟩

theorem listContains_append_left (n₁ n₂ : Str) :
    ∀ l, listContains (n₁ ++ n₂) l = true → listContains n₁ l = true := by
  intro l
  induction l with
  | nil =>
    intro h
    cases n₁ with
    | nil => exact listContains_nil []
    | cons a as => simp [listContains] at h
  | cons c t ih =>
    intro h
    simp only [listContains, Bool.or_eq_true] at h ⊢
    rcases h with h | h
    · exact Or.inl (listStartsWith_append n₁ n₂ _ h)
    · exact Or.inr (ih h)

theorem not_entry_level_of_not_entry (l : Str)
    (he : listContains (str "entry") l = false) :
    listContains (str "entry level") l = false := by
  cases hb : listContains (str "entry level") l
  · rfl
  · have : listContains (str "entry") l = true := by
      have hsplit : str "entry level" = str "entry" ++ str " level" := rfl
      rw [hsplit] at hb
      exact listContains_append_left _ _ l hb
    rw [this] at he
    exact absurd he (by simp)

theorem foldl_max_le_iff (k : Nat) :
    ∀ (ns : List Nat) (n : Nat), List.foldl max n ns ≤ k ↔ n ≤ k ∧ ∀ m ∈ ns, m ≤ k := by
  intro ns
  induction ns with
  | nil =>
    intro n
    simp
  | cons m ms ih =>
    intro n
    simp only [List.foldl_cons]
    rw [ih (max n m), Nat.max_le, List.forall_mem_cons]
    tauto

theorem is_valid_experience_no_marker (s : Str)
    (hf : listContains (str "fresher") (pyLower s) = false)
    (he : listContains (str "entry") (pyLower s) = false) :
    is_valid_experience (some s) =
      (if (extractNumbers (pyLower s)).isEmpty then true
       else decide (pyMaxList (extractNumbers (pyLower s)) ≤ 2)) := by
  cases h0 : (s.isEmpty || s == str "Not Specified")
  · simp only [is_valid_experience, h0, Bool.false_eq_true, if_false, hf, he,
      Bool.or_self]
  · have h0p : s = [] ∨ s = str "Not Specified" := by
      rcases Bool.or_eq_true_iff.mp h0 with h | h
      · exact Or.inl (by simpa using h)
      · exact Or.inr (by simpa using h)
    rcases h0p with rfl | rfl <;> decide

theorem is_valid_experience_rss_no_marker (s : Str)
    (hf : listContains (str "fresher") (pyLower s) = false)
    (hel : listContains (str "entry level") (pyLower s) = false) :
    is_valid_experience_rss s =
      (if (extractNumbers (pyLower s)).isEmpty then true
       else decide (pyMaxList (extractNumbers (pyLower s)) ≤ 2)) := by
  simp only [is_valid_experience_rss, hf, hel, Bool.or_self, Bool.false_eq_true, if_false]

/-- C3: for every experience text without the markers fresher and entry
(case-insensitive), both variants of is_valid_experience return true when
the text has no integer substring, and return exactly the comparison of the
largest extracted integer against 2 when it has one. -/
theorem claim3_filter_numeric_rule (s : Str)
    (hf : listContains (str "fresher") (pyLower s) = false)
    (he : listContains (str "entry") (pyLower s) = false) :
    (extractNumbers (pyLower s) = [] →
      is_valid_experience (some s) = true ∧ is_valid_experience_rss s = true) ∧
    (extractNumbers (pyLower s) ≠ [] →
      is_valid_experience (some s) = decide (pyMaxList (extractNumbers (pyLower s)) ≤ 2) ∧
      is_valid_experience_rss s = decide (pyMaxList (extractNumbers (pyLower s)) ≤ 2)) := by
  have hel := not_entry_level_of_not_entry (pyLower s) he
  have h1 := is_valid_experience_no_marker s hf he
  have h2 := is_valid_experience_rss_no_marker s hf hel
  constructor
  · intro hnum
    rw [h1, h2, hnum]
    simp
  · intro hnum
    rw [h1, h2]
    cases hq : extractNumbers (pyLower s) with
    | nil => exact absurd hq hnum
    | cons n ns => simp

/-- C3 witness: a concrete marker-free text whose largest integer exceeds 2
is rejected by both variants, by the main theorem. -/
theorem claim3_witness :
    is_valid_experience (some (str "3-5 years")) = false ∧
    is_valid_experience_rss (str "3-5 years") = false := by
  have h := (claim3_filter_numeric_rule (str "3-5 years") (by decide) (by decide)).2
    (by decide)
  refine ⟨?_, ?_⟩
  · rw [h.1]
    decide
  · rw [h.2]
    decide

/-- C4 counterexample: the text Entry, 5 years contains the marker entry
(case-insensitive), yet the RSS variant rejects it, because that variant
only recognises the phrase entry level and falls through to the number
rule. -/
theorem claim4_counterexample :
    listContains (str "entry") (pyLower (str "Entry, 5 years")) = true ∧
    is_valid_experience_rss (str "Entry, 5 years") = false := by decide

/-- C4 amended: texts containing fresher or entry are always accepted by
the multi-source variant; in the RSS variant the markers are fresher and
the full phrase entry level, and texts containing one of those are always
accepted there. -/
theorem claim4_amended (s : Str) :
    ((listContains (str "fresher") (pyLower s) = true ∨
      listContains (str "entry") (pyLower s) = true) →
      is_valid_experience (some s) = true) ∧
    ((listContains (str "fresher") (pyLower s) = true ∨
      listContains (str "entry level") (pyLower s) = true) →
      is_valid_experience_rss s = true) := by
  constructor
  · intro h
    cases h0 : (s.isEmpty || s == str "Not Specified")
    · rcases h with h | h <;> simp [is_valid_experience, h0, h]
    · simp [is_valid_experience, h0]
  · intro h
    rcases h with h | h <;> simp [is_valid_experience_rss, h]

/-- C4 witness: concrete marker-bearing texts with large integers are
accepted, by the amended theorem. -/
theorem claim4_witness :
    is_valid_experience (some (str "Fresher, 5 years listed")) = true ∧
    is_valid_experience_rss (str "Entry Level, 5 years") = true := by
  exact ⟨(claim4_amended _).1 (Or.inl (by decide)),
         (claim4_amended _).2 (Or.inr (by decide))⟩

/-- C5 counterexample: the text 1-5 years has the extracted integer 1 which
is at most 2, yet both variants reject it, because the rule compares the
maximum extracted integer, not any single one. -/
theorem claim5_counterexample :
    (1 ∈ extractNumbers (pyLower (str "1-5 years")) ∧ 1 ≤ 2) ∧
    is_valid_experience (some (str "1-5 years")) = false ∧
    is_valid_experience_rss (str "1-5 years") = false := by decide

/-- C5 amended: for marker-free texts, is_valid_experience returns true
exactly when every extracted integer is at most 2 (equivalently, the
maximum is at most 2); in particular texts whose integers all exceed 2 are
rejected, but a single small integer does not save a text with a larger
one. -/
theorem claim5_amended (s : Str) :
    (listContains (str "fresher") (pyLower s) = false →
     listContains (str "entry") (pyLower s) = false →
      (is_valid_experience (some s) = true ↔
        ∀ n ∈ extractNumbers (pyLower s), n ≤ 2)) ∧
    (listContains (str "fresher") (pyLower s) = false →
     listContains (str "entry level") (pyLower s) = false →
      (is_valid_experience_rss s = true ↔
        ∀ n ∈ extractNumbers (pyLower s), n ≤ 2)) := by
  constructor
  · intro hf he
    rw [is_valid_experience_no_marker s hf he]
    cases hq : extractNumbers (pyLower s) with
    | nil => simp
    | cons n ns =>
      simp only [List.isEmpty_cons, Bool.false_eq_true, if_false, pyMaxList,
        decide_eq_true_eq, List.forall_mem_cons]
      rw [foldl_max_le_iff]
  · intro hf hel
    rw [is_valid_experience_rss_no_marker s hf hel]
    cases hq : extractNumbers (pyLower s) with
    | nil => simp
    | cons n ns =>
      simp only [List.isEmpty_cons, Bool.false_eq_true, if_false, pyMaxList,
        decide_eq_true_eq, List.forall_mem_cons]
      rw [foldl_max_le_iff]

/-- C5 witness: a concrete marker-free text whose integers are all at most 2
is accepted by both variants, by the amended theorem. -/
theorem claim5_witness :
    is_valid_experience (some (str "0-2 years")) = true ∧
    is_valid_experience_rss (str "0-2 years") = true := by
  have h := claim5_amended (str "0-2 years")
  exact ⟨(h.1 (by decide) (by decide)).mpr (by decide),
         (h.2 (by decide) (by decide)).mpr (by decide)⟩

/-- C6 counterexample: called on the Python value None (no value at all),
the RSS variant of is_valid_experience raises an attribute error instead of
returning true, because its first statement lowercases the argument without
any guard. -/
theorem claim6_counterexample :
    is_valid_experience_rss_py none = Except.error PyErr.attr := rfl

/-- C6 amended: the empty experience text is accepted by both variants
without raising, and an absent value (None) is accepted by the multi-source
variant, whose falsy guard catches it; the RSS variant raises on None (its
caller substitutes the empty string only when the element is missing
altogether). -/
theorem claim6_amended :
    is_valid_experience none = true ∧
    is_valid_experience (some []) = true ∧
    is_valid_experience_rss [] = true ∧
    is_valid_experience_rss_py (some []) = Except.ok true ∧
    is_valid_experience_rss_py none = Except.error PyErr.attr := by
  exact ⟨rfl, by decide, by decide, rfl, rfl⟩

theorem scrape_company_portals_append (d : Str) :
    ∀ (p q : List (Str × Except PyErr (List Str))),
      scrape_company_portals d (p ++ q) =
        scrape_company_portals d p ++ scrape_company_portals d q := by
  intro p q
  induction p with
  | nil => rfl
  | cons pf rest ih =>
    rcases pf with ⟨c, f⟩
    simp [scrape_company_portals, ih]

theorem processRssItems_ok_append (bad : RssItem) (e : PyErr)
    (hbad : processRssItem bad = Except.error e) :
    ∀ (ri ri₂ : List RssItem),
      (∀ it ∈ ri, exceptOk (processRssItem it) = true) →
      (processRssItems (ri ++ bad :: ri₂)).1 = (processRssItems ri).1 := by
  intro ri ri₂
  induction ri with
  | nil =>
    intro _
    simp [processRssItems, hbad]
  | cons it rest ih =>
    intro hok
    have hit := hok it (List.mem_cons_self _ _)
    cases hpi : processRssItem it with
    | error e' =>
      rw [hpi] at hit
      simp [exceptOk] at hit
    | ok v =>
      cases v with
      | none =>
        simp only [List.cons_append, processRssItems, hpi]
        exact ih fun x hx => hok x (List.mem_cons_of_mem _ hx)
      | some j =>
        simp only [List.cons_append, processRssItems, hpi]
        exact congrArg (fun l => j :: l) (ih fun x hx => hok x (List.mem_cons_of_mem _ hx))

theorem send_email_eq (env : Env) (d : Except SmtpErr Unit) :
    send_email env d = (credsOk env && smtpOk d, credsOk env) := by
  cases hc : credsOk env
  · have h : (truthy env.sender && truthy env.password && truthy env.recipient) = false := hc
    simp [send_email, h]
  · have h : (truthy env.sender && truthy env.password && truthy env.recipient) = true := hc
    cases d with
    | ok u => simp [send_email, h, smtpOk, exceptOk]
    | error e' => simp [send_email, h, smtpOk, exceptOk]

theorem mem_scrapePortalCompany (d c : Str) (f : Except PyErr (List Str)) (j : JobA)
    (h : j ∈ scrapePortalCompany d c f) :
    ∃ href, hrefOk href = true ∧ j = portalJob c href d := by
  cases f with
  | error e => simp [scrapePortalCompany] at h
  | ok links =>
    simp only [scrapePortalCompany] at h
    rcases List.mem_filterMap.mp h with ⟨href, _, hsome⟩
    by_cases hok : hrefOk href
    · rw [if_pos hok] at hsome
      exact ⟨href, hok, (Option.some_injective _ hsome).symm⟩
    · rw [if_neg hok] at hsome
      exact absurd hsome (by simp)

theorem mem_scrape_company_portals (d : Str) :
    ∀ (fetches : List (Str × Except PyErr (List Str))) (j : JobA),
      j ∈ scrape_company_portals d fetches →
      ∃ c href, hrefOk href = true ∧ j = portalJob c href d := by
  intro fetches
  induction fetches with
  | nil =>
    intro j h
    simp [scrape_company_portals] at h
  | cons p rest ih =>
    intro j h
    rcases p with ⟨c, f⟩
    simp only [scrape_company_portals, List.mem_append] at h
    rcases h with h | h
    · rcases mem_scrapePortalCompany d c f j h with ⟨href, hok, hj⟩
      exact ⟨c, href, hok, hj⟩
    · exact ih j h

/-- C1 counterexample: with every source fetch failing, the spreadsheet
writer healthy and all three credentials set, the multi-source run yields no
report at all (None instead of a one-row no-jobs report) and never invokes
the notifier, contradicting the claim for that variant. -/
theorem claim1_counterexample :
    runAlert { runDate := str "2026-10-12",
               naukriFetch := Except.error PyErr.transport,
               portalFetch := fun _ => Except.error PyErr.transport,
               writer := Except.ok (),
               env := { sender := some (str "sender"), password := some (str "secret"),
                        recipient := some (str "recipient") },
               delivery := Except.ok () } =
      { jobs := [], report := none, notifierInvoked := false,
        deliveryAttempted := false, emailSent := false } := by
  rfl

/-- C1 amended: in the RSS variant, a run whose fetch fails still produces
the single-row no-jobs report and always invokes the notifier, which
attempts delivery exactly when the three credentials are set; in the
multi-source variant, a run in which all fetches fail produces no report
file and skips notification entirely. -/
theorem claim1_amended (inpR : RssInputs) (e : PyErr) (inpA : AlertInputs) :
    (inpR.fetch = Except.error e → inpR.writer = Except.ok () →
      runRss inpR = Except.ok
        { jobs := [], reportRows := [RssRow.message noJobsMessage],
          deliveryAttempted := credsOk inpR.env,
          emailSent := credsOk inpR.env && smtpOk inpR.delivery }) ∧
    (inpA.naukriFetch = Except.error e →
      (∀ c, inpA.portalFetch c = Except.error e) →
      (runAlert inpA).report = none ∧ (runAlert inpA).notifierInvoked = false) := by
  constructor
  · intro hf hw
    simp [runRss, hf, hw, scrape_indeed_rss, remove_duplicates_rss, dedupeBy,
      generate_excel, send_email_eq]
  · intro hn hp
    have h1 : scrape_naukri_jobs inpA.runDate inpA.naukriFetch = [] := by
      rw [hn]
      rfl
    have h2 : scrape_company_portals inpA.runDate
        (portalCompanies.map fun c => (c, inpA.portalFetch c)) = [] := by
      simp [portalCompanies, scrape_company_portals, scrapePortalCompany, hp]
    refine ⟨?_, ?_⟩ <;>
      simp [runAlert, h1, h2, remove_duplicates, dedupeBy, generate_excel_report]

/-- C1 witness: concrete all-fetches-fail runs of both variants, with
credentials set and a healthy writer, by the amended theorem. -/
theorem claim1_witness :
    runRss { fetch := Except.error PyErr.transport, writer := Except.ok (),
             env := { sender := some (str "sender"), password := some (str "secret"),
                      recipient := some (str "recipient") },
             delivery := Except.ok () } =
      Except.ok { jobs := [], reportRows := [RssRow.message noJobsMessage],
                  deliveryAttempted := true, emailSent := true } ∧
    (runAlert { runDate := str "2026-10-12",
                naukriFetch := Except.error PyErr.transport,
                portalFetch := fun _ => Except.error PyErr.transport,
                writer := Except.ok (),
                env := { sender := some (str "sender"), password := some (str "secret"),
                         recipient := some (str "recipient") },
                delivery := Except.ok () }).report = none := by
  have h := claim1_amended
    { fetch := Except.error PyErr.transport, writer := Except.ok (),
      env := { sender := some (str "sender"), password := some (str "secret"),
               recipient := some (str "recipient") },
      delivery := Except.ok () }
    PyErr.transport
    { runDate := str "2026-10-12",
      naukriFetch := Except.error PyErr.transport,
      portalFetch := fun _ => Except.error PyErr.transport,
      writer := Except.ok (),
      env := { sender := some (str "sender"), password := some (str "secret"),
               recipient := some (str "recipient") },
      delivery := Except.ok () }
  exact ⟨h.1 rfl rfl, (h.2 rfl fun c => rfl).1⟩

/-- C2 counterexample: in the RSS adapter an error while processing one
item (here: an item whose title element has no text) does not abort only
that item; the item after it would process fine on its own, yet it is lost,
because the error propagates to the adapter-level handler. -/
theorem claim2_counterexample :
    scrape_indeed_rss (Except.ok
      [{ title := some (str "Data Engineer A"), link := str "http://a",
         description := some (str "fresher"), pubDate := str "d1" },
       { title := none, link := str "", description := some (str ""), pubDate := str "" },
       { title := some (str "Data Engineer B"), link := str "http://b",
         description := some (str "fresher"), pubDate := str "d2" }]) =
      [{ title := str "Data Engineer A", company := str "Check Indeed Posting",
         location := str "India", experience := str "≤ 2 years",
         jobSource := str "Indeed RSS", postedDate := str "d1", url := str "http://a" }] ∧
    processRssItem
      { title := some (str "Data Engineer B"), link := str "http://b",
        description := some (str "fresher"), pubDate := str "d2" } =
      Except.ok (some
      { title := str "Data Engineer B", company := str "Check Indeed Posting",
        location := str "India", experience := str "≤ 2 years",
        jobSource := str "Indeed RSS", postedDate := str "d2", url := str "http://b" }) := by
  exact ⟨by decide, rfl⟩

/-- C2 amended: in the multi-source variant an error on one candidate card
skips only that card and later cards are still processed, a fetch or parse
error empties only that adapter, and a failed portal fetch skips only that
company; the whole multi-source run is a total function of its inputs.  In
the RSS variant a fetch or parse error also empties only that adapter, but
an error on one item ends the processing of all remaining items of that
adapter (records gathered before it are kept), and the run terminates
normally whenever the report write succeeds. -/
theorem claim2_amended (d : Str) (l₁ l₂ : List (Except PyErr NaukriEntry)) (e : PyErr)
    (p₁ p₂ : List (Str × Except PyErr (List Str))) (c : Str)
    (inp : AlertInputs) (ri ri₂ : List RssItem) (bad : RssItem) (inpR : RssInputs) :
    ((l₁ ++ Except.error e :: l₂).filterMap (processNaukriCard d) =
      (l₁ ++ l₂).filterMap (processNaukriCard d)) ∧
    (scrape_naukri_jobs d (Except.error e) = []) ∧
    (scrape_company_portals d (p₁ ++ (c, Except.error e) :: p₂) =
      scrape_company_portals d (p₁ ++ p₂)) ∧
    (runAlert { inp with naukriFetch := Except.error e } =
      runAlert { inp with naukriFetch := Except.ok [] }) ∧
    (scrape_indeed_rss (Except.error e) = []) ∧
    ((∀ it ∈ ri, exceptOk (processRssItem it) = true) →
      processRssItem bad = Except.error e →
      scrape_indeed_rss (Except.ok (ri ++ bad :: ri₂)) = scrape_indeed_rss (Except.ok ri)) ∧
    (inpR.writer = Except.ok () → exceptOk (runRss inpR) = true) := by
  refine ⟨?_, rfl, ?_, ?_, rfl, ?_, ?_⟩
  · simp [List.filterMap_append, List.filterMap_cons, processNaukriCard]
  · rw [scrape_company_portals_append, scrape_company_portals_append]
    simp [scrape_company_portals, scrapePortalCompany]
  · simp [runAlert, scrape_naukri_jobs]
  · intro hok hbad
    exact processRssItems_ok_append bad e hbad ri ri₂ hok
  · intro hw
    simp [runRss, hw, exceptOk]

/-- C2 witness: a concrete RSS item list where the erroring item truncates
processing, and a concrete RSS run that terminates normally, by the amended
theorem. -/
theorem claim2_witness :
    scrape_indeed_rss (Except.ok
      ([{ title := some (str "Data Engineer A"), link := str "http://a",
          description := some (str "fresher"), pubDate := str "d1" }] ++
        { title := (none : Option Str), link := str "", description := some (str ""),
          pubDate := str "" } :: [])) =
      scrape_indeed_rss (Except.ok
        [{ title := some (str "Data Engineer A"), link := str "http://a",
           description := some (str "fresher"), pubDate := str "d1" }]) ∧
    exceptOk (runRss { fetch := Except.error PyErr.transport, writer := Except.ok (),
                       env := { sender := none, password := none, recipient := none },
                       delivery := Except.ok () }) = true := by
  have h := claim2_amended (str "d") [] [] PyErr.attr [] [] (str "c")
    { runDate := str "d", naukriFetch := Except.ok [], portalFetch := fun _ => Except.ok [],
      writer := Except.ok (), env := { sender := none, password := none, recipient := none },
      delivery := Except.ok () }
    [{ title := some (str "Data Engineer A"), link := str "http://a",
       description := some (str "fresher"), pubDate := str "d1" }] []
    { title := none, link := str "", description := some (str ""), pubDate := str "" }
    { fetch := Except.error PyErr.transport, writer := Except.ok (),
      env := { sender := none, password := none, recipient := none },
      delivery := Except.ok () }
  refine ⟨h.2.2.2.2.2.1 ?_ rfl, h.2.2.2.2.2.2 rfl⟩
  intro it hit
  rw [List.mem_singleton.mp hit]
  decide

/-- C9: whenever at least one of the three email credentials is unset, both
notifiers return the failure result without reaching the delivery attempt
(no network activity), and the run still terminates normally. -/
theorem claim9_missing_creds (env : Env) (fe : Bool) (d : Except SmtpErr Unit)
    (inpR : RssInputs)
    (h : env.sender = none ∨ env.password = none ∨ env.recipient = none) :
    send_email_alert env fe d = (false, false) ∧
    send_email env d = (false, false) ∧
    (inpR.writer = Except.ok () → exceptOk (runRss inpR) = true) := by
  have hc : (truthy env.sender && truthy env.password && truthy env.recipient) = false := by
    rcases h with h | h | h <;> simp [truthy, h]
  refine ⟨?_, ?_, ?_⟩
  · simp [send_email_alert, hc]
  · simp [send_email, hc]
  · intro hw
    simp [runRss, hw, exceptOk]

/-- C9 witness: a concrete environment with the sender unset, by the main
theorem. -/
theorem claim9_witness :
    send_email_alert { sender := none, password := some (str "secret"),
                       recipient := some (str "recipient") }
      true (Except.ok ()) = (false, false) ∧
    send_email { sender := none, password := some (str "secret"),
                 recipient := some (str "recipient") }
      (Except.ok ()) = (false, false) := by
  have h := claim9_missing_creds
    { sender := none, password := some (str "secret"), recipient := some (str "recipient") }
    true (Except.ok ())
    { fetch := Except.ok [], writer := Except.ok (),
      env := { sender := none, password := none, recipient := none },
      delivery := Except.ok () }
    (Or.inl rfl)
  exact ⟨h.1, h.2.1⟩

/-- C10: every record of the company-portal adapter carries the constant
title, location, salary and experience fields; each company contributes at
most 5 records per run; and membership of a record in one company's output
is decided by the href test alone, so the experience filter plays no part. -/
theorem claim10_portal_records (d : Str) (fetches : List (Str × Except PyErr (List Str)))
    (j : JobA) :
    (j ∈ scrape_company_portals d fetches →
      j.title = str "Data Engineer" ∧ j.location = str "India" ∧
      j.salary = str "Check Portal" ∧ j.experience = str "0-2 years") ∧
    (∀ c f, (scrapePortalCompany d c f).length ≤ 5) ∧
    (∀ c links, j ∈ scrapePortalCompany d c (Except.ok links) ↔
      ∃ href ∈ links.take 5, hrefOk href = true ∧ j = portalJob c href d) := by
  refine ⟨?_, ?_, ?_⟩
  · intro h
    rcases mem_scrape_company_portals d fetches j h with ⟨c, href, -, rfl⟩
    exact ⟨rfl, rfl, rfl, rfl⟩
  · intro c f
    cases f with
    | error e => simp [scrapePortalCompany]
    | ok links =>
      simp only [scrapePortalCompany]
      calc (List.filterMap _ (links.take 5)).length
          ≤ (links.take 5).length := List.length_filterMap_le _ _
        _ ≤ 5 := List.length_take_le 5 links
  · intro c links
    simp only [scrapePortalCompany]
    rw [List.mem_filterMap]
    constructor
    · rintro ⟨href, hmem, hsome⟩
      by_cases hok : hrefOk href
      · rw [if_pos hok] at hsome
        exact ⟨href, hmem, hok, (Option.some_injective _ hsome).symm⟩
      · rw [if_neg hok] at hsome
        exact absurd hsome (by simp)
    · rintro ⟨href, hmem, hok, rfl⟩
      exact ⟨href, hmem, by rw [if_pos hok]⟩

/-- C10 witness: a concrete portal record, obtained through the membership
hypothesis of the main theorem, has the four constant fields. -/
theorem claim10_witness :
    (portalJob (str "TCS") (str "/j1") (str "2026-10-12")).title = str "Data Engineer" ∧
    (portalJob (str "TCS") (str "/j1") (str "2026-10-12")).location = str "India" ∧
    (portalJob (str "TCS") (str "/j1") (str "2026-10-12")).salary = str "Check Portal" ∧
    (portalJob (str "TCS") (str "/j1") (str "2026-10-12")).experience = str "0-2 years" := by
  have h := claim10_portal_records (str "2026-10-12")
    [(str "TCS", Except.ok [str "/j1"])]
    (portalJob (str "TCS") (str "/j1") (str "2026-10-12"))
  exact h.1 (by decide)

end JobSearch
